import Mathlib

/-!
Shallow embedding of the BSC-Arbitrage-Bot decision core, translated from the
Python sources `portfolio_tracker.py`, `multi_timeframe_analyzer.py`,
`ai_trading_agent.py` and `token_similarity.py`.

Modelling conventions:
* Python floats are modelled as exact rationals (`ℚ`); the spec's
  "within floating-point tolerance" phrasing is settled in exact arithmetic.
* Python `dict` (insertion ordered, unique keys) is modelled as an
  association list; assignment replaces in place, `del` removes the entry.
* Wall-clock values (`datetime.utcnow()`, `entry_time`) do not belong in a
  shallow embedding; time-derived quantities such as `hours_held` are taken
  as explicit parameters and timestamp fields are omitted from records.
-/

namespace BSC

/-- Position dataclass from `portfolio_tracker.py` (entry_time omitted, see
module comment). Derived fields default to 0 exactly as in the dataclass. -/
structure Position where
  token_symbol : String
  token_address : String
  entry_price : ℚ
  current_price : ℚ
  quantity : ℚ
  position_value_usd : ℚ := 0
  pnl_usd : ℚ := 0
  pnl_percent : ℚ := 0
deriving DecidableEq

/-- `Position.update_price`: set current price and recompute the derived
P&L fields. -/
def update_price (p : Position) (new_price : ℚ) : Position :=
  { p with
    current_price := new_price
    position_value_usd := p.quantity * new_price
    pnl_usd := p.quantity * new_price - p.quantity * p.entry_price
    pnl_percent :=
      if p.quantity * p.entry_price > 0 then
        (p.quantity * new_price - p.quantity * p.entry_price)
          / (p.quantity * p.entry_price) * 100
      else 0 }

/-- Trade dataclass (timestamp omitted, see module comment). -/
structure Trade where
  action : String
  token_symbol : String
  token_address : String
  price : ℚ
  quantity : ℚ
  value_usd : ℚ
  reason : String
deriving DecidableEq

/-- Portfolio dataclass. `positions` models the Python dict keyed by token
address as an insertion-ordered association list. -/
structure Portfolio where
  starting_balance : ℚ := 1000
  current_balance : ℚ := 1000
  positions : List (String × Position) := []
  trade_history : List Trade := []
  total_realized_pnl : ℚ := 0
  total_unrealized_pnl : ℚ := 0
  win_count : ℕ := 0
  loss_count : ℕ := 0
deriving DecidableEq

/-- Lookup in a Python dict modelled as an association list. -/
def dictLookup {β : Type} (k : String) : List (String × β) → Option β
  | [] => none
  | e :: rest => if e.1 = k then some e.2 else dictLookup k rest

/-- Python dict assignment `d[k] = v`: replace in place if the key exists,
append otherwise. -/
def dictInsert {β : Type} (k : String) (v : β) : List (String × β) → List (String × β)
  | [] => [(k, v)]
  | e :: rest => if e.1 = k then (k, v) :: rest else e :: dictInsert k v rest

/-- Python `del d[k]`: remove the entry with the key. -/
def dictErase {β : Type} (k : String) : List (String × β) → List (String × β)
  | [] => []
  | e :: rest => if e.1 = k then rest else e :: dictErase k rest

/-- Buy trade recorded by `Portfolio.add_position`. -/
def buyTrade (pos : Position) : Trade :=
  { action := "buy", token_symbol := pos.token_symbol,
    token_address := pos.token_address, price := pos.entry_price,
    quantity := pos.quantity, value_usd := pos.quantity * pos.entry_price,
    reason := "Initial position" }

/-- `Portfolio.add_position`: store the position under its address, deduct
the cost from cash and append a buy trade. The source performs no
duplicate-address or balance check. -/
def add_position (p : Portfolio) (pos : Position) : Portfolio :=
  { p with
    positions := dictInsert pos.token_address pos p.positions
    current_balance := p.current_balance - pos.quantity * pos.entry_price
    trade_history := p.trade_history ++ [buyTrade pos] }

/-- Sell trade recorded by `Portfolio.close_position` (built from the
position after its final `update_price`). -/
def sellTrade (pos : Position) (sell_price : ℚ) (reason : String) : Trade :=
  { action := "sell", token_symbol := pos.token_symbol,
    token_address := pos.token_address, price := sell_price,
    quantity := pos.quantity, value_usd := pos.position_value_usd,
    reason := reason }

/-- `Portfolio.close_position`: returns the new portfolio and the Python
return value (`False` when the address has no open position). -/
def close_position (p : Portfolio) (token_address : String) (sell_price : ℚ)
    (reason : String) : Portfolio × Bool :=
  match dictLookup token_address p.positions with
  | none => (p, false)
  | some pos0 =>
    let pos := update_price pos0 sell_price
    ({ p with
        current_balance := p.current_balance + pos.position_value_usd
        total_realized_pnl := p.total_realized_pnl + pos.pnl_usd
        win_count := if pos.pnl_usd > 0 then p.win_count + 1 else p.win_count
        loss_count := if pos.pnl_usd > 0 then p.loss_count else p.loss_count + 1
        trade_history := p.trade_history ++ [sellTrade pos sell_price reason]
        positions := dictErase token_address p.positions }, true)

/-- Loop body of `Portfolio.update_all_prices`: walk the positions in order,
refresh each position whose address appears in the price map, and accumulate
the refreshed positions' `pnl_usd` (the accumulator starts at 0). -/
def updateEntries (m : List (String × ℚ)) :
    List (String × Position) → List (String × Position) × ℚ
  | [] => ([], 0)
  | e :: rest =>
    let r := updateEntries m rest
    match dictLookup e.1 m with
    | some pr =>
      let pos := update_price e.2 pr
      ((e.1, pos) :: r.1, pos.pnl_usd + r.2)
    | none => (e :: r.1, r.2)

/-- `Portfolio.update_all_prices`: reset `total_unrealized_pnl` to 0 and
re-accumulate it from the positions covered by the price map. -/
def update_all_prices (p : Portfolio) (m : List (String × ℚ)) : Portfolio :=
  { p with
    positions := (updateEntries m p.positions).1
    total_unrealized_pnl := (updateEntries m p.positions).2 }

/-- Sum of `position_value_usd` over the open positions. -/
def pvSum (l : List (String × Position)) : ℚ :=
  (l.map (fun e => e.2.position_value_usd)).sum

/-- `Portfolio.get_total_value`: cash plus the value of the open positions. -/
def get_total_value (p : Portfolio) : ℚ := p.current_balance + pvSum p.positions

/-- `Portfolio.get_total_pnl`. -/
def get_total_pnl (p : Portfolio) : ℚ := p.total_realized_pnl + p.total_unrealized_pnl

/-- A freshly constructed `Portfolio(starting_balance=b, current_balance=b)`. -/
def freshPortfolio (b : ℚ) : Portfolio :=
  { starting_balance := b, current_balance := b, positions := [],
    trade_history := [], total_realized_pnl := 0, total_unrealized_pnl := 0,
    win_count := 0, loss_count := 0 }

/-- One operation of the portfolio lifecycle considered by the
reconciliation claim. -/
inductive Op where
  | add (pos : Position)
  | updateAll (prices : List (String × ℚ))
  | close (addr : String) (price : ℚ) (reason : String)

/-- Apply one operation to the portfolio state. -/
def applyOp (p : Portfolio) : Op → Portfolio
  | .add pos => add_position p pos
  | .updateAll m => update_all_prices p m
  | .close a price r => (close_position p a price r).1

/-- Run a sequence of operations from a given state. -/
def runOps (p : Portfolio) : List Op → Portfolio
  | [] => p
  | op :: ops => runOps (applyOp p op) ops

/-- An `add` is address-fresh when no live position uses its address
(re-buying after a close is allowed; overwriting a live position is not). -/
def legalOpB (p : Portfolio) : Op → Bool
  | .add pos => (dictLookup pos.token_address p.positions).isNone
  | _ => true

/-- Every operation of the sequence is legal in the state it runs in. -/
def legalOpsB (p : Portfolio) : List Op → Bool
  | [] => true
  | op :: ops => legalOpB p op && legalOpsB (applyOp p op) ops

/-- Arithmetic mean (`np.mean`) of a rational series. -/
def mean (l : List ℚ) : ℚ := l.sum / (l.length : ℚ)

/-- `MultiTimeframeAnalyzer.calculate_volume_trend`: compare the mean of the
first half of the series with the mean of the second half; note the source
divides by `avg_first_half + 1`. -/
def calculate_volume_trend (volumes : List ℚ) : String :=
  if volumes.length < 2 then "stable"
  else if mean (volumes.drop (volumes.length / 2))
      / (mean (volumes.take (volumes.length / 2)) + 1) > 13/10 then "increasing"
  else if mean (volumes.drop (volumes.length / 2))
      / (mean (volumes.take (volumes.length / 2)) + 1) < 7/10 then "decreasing"
  else "stable"

/-- TimeframeData dataclass from `multi_timeframe_analyzer.py`. -/
structure TimeframeData where
  timeframe : String
  price_change : ℚ
  volume_avg : ℚ
  volume_trend : String
  price_momentum : String
  support_level : ℚ
  resistance_level : ℚ
  volatility : ℚ
deriving DecidableEq

/-- Support levels considered by `calculate_risk_reward` (strictly positive
ones, in timeframe order). -/
def posSupports (tfs : List TimeframeData) : List ℚ :=
  (tfs.map TimeframeData.support_level).filter (fun s => decide (0 < s))

/-- Resistance levels considered by `calculate_risk_reward` (strictly
positive ones, in timeframe order). -/
def posResistances (tfs : List TimeframeData) : List ℚ :=
  (tfs.map TimeframeData.resistance_level).filter (fun s => decide (0 < s))

/-- `MultiTimeframeAnalyzer.calculate_risk_reward` with the token's price
passed explicitly (`token.price_usd` in the source) and the timeframe dict's
values as a list. -/
def calculate_risk_reward (price : ℚ) (tfs : List TimeframeData) : ℚ :=
  if posSupports tfs = [] ∨ posResistances tfs = [] then 1
  else if |price - mean (posSupports tfs)| = 0 then 3
  else min (|mean (posResistances tfs) - price| / |price - mean (posSupports tfs)|) 3

/-- TradingStrategy enum from `ai_trading_agent.py`. -/
inductive TradingStrategy where
  | scalping
  | swing
  | position
deriving DecidableEq

/-- `AITradingAgent.take_profit_targets` (all three strategies are present
in the dict, so the `.get(_, 50)` default is never used). -/
def take_profit_target : TradingStrategy → ℚ
  | .scalping => 25
  | .swing => 50
  | .position => 100

/-- Which exit rule produced a sell decision; stands for the reason string
built by the source's f-strings. -/
inductive ExitReason where
  | stopLoss
  | takeProfit
  | trendReversal
  | scalpTimeLimit
deriving DecidableEq

/-- Core of a TradingDecision as emitted by the exit-evaluation path. -/
structure ExitDecision where
  action : String
  confidence : ℚ
  reason : ExitReason
  suggested_amount : ℚ
deriving DecidableEq

/-- `AITradingAgent._analyze_existing_position` decision logic: the position
is refreshed at the token's current price, then the exit rules run as an
if/elif chain (`overall_trend` comes from the fresh analysis; `hours_held`
is wall-clock derived and taken as a parameter). `stop_loss_pct = 15`. -/
def analyze_existing_position (pos : Position) (price : ℚ)
    (overall_trend : String) (strategy : TradingStrategy) (hours_held : ℚ) :
    Option ExitDecision :=
  if (update_price pos price).pnl_percent ≤ -15 then
    some ⟨"sell", 90, .stopLoss, (update_price pos price).quantity⟩
  else if (update_price pos price).pnl_percent ≥ take_profit_target strategy then
    some ⟨"sell", 90, .takeProfit, (update_price pos price).quantity⟩
  else if (overall_trend = "bearish" ∨ overall_trend = "strong_bearish")
      ∧ (update_price pos price).pnl_percent > 10 then
    some ⟨"sell", 90, .trendReversal, (update_price pos price).quantity⟩
  else if strategy = .scalping ∧ hours_held > 4
      ∧ (update_price pos price).pnl_percent > 5 then
    some ⟨"sell", 90, .scalpTimeLimit, (update_price pos price).quantity⟩
  else none

/-- `AITradingAgent.min_capital_reserve` (default configuration). -/
def min_capital_reserve : ℚ := 500

/-- `AITradingAgent.get_available_capital`: total portfolio value minus the
reserve, floored at 0. -/
def get_available_capital (p : Portfolio) : ℚ :=
  max 0 (get_total_value p - min_capital_reserve)

/-- `AITradingAgent.calculate_position_size`: fraction of available capital
scaled by confidence (the source computes `(confidence - 50) / 50` with no
clamping) divided by the token price. -/
def calculate_position_size (p : Portfolio) (token_price confidence : ℚ) : ℚ :=
  if token_price > 0 then
    get_available_capital p * (1/10 + 1/10 * ((confidence - 50) / 50)) / token_price
  else 0

/-- TokenData dataclass from `dexscreener_api.py` (`created_at` string
omitted: it is only consumed through wall-clock age parsing). -/
structure TokenData where
  address : String
  symbol : String
  name : String
  price_usd : ℚ
  price_change_24h : ℚ
  volume_24h : ℚ
  liquidity_usd : ℚ
  market_cap : ℚ
  fdv : ℚ
  chain : String
  pair_address : String
deriving DecidableEq

/-- Volume-activity component (0-30) of `_calculate_opportunity`. -/
def volumeScore (t : TokenData) : ℚ :=
  if t.volume_24h / (t.market_cap + 1) > 2 then 30
  else if t.volume_24h / (t.market_cap + 1) > 1 then 20
  else if t.volume_24h / (t.market_cap + 1) > 1/2 then 10
  else 0

/-- Price-momentum component (0-20) of `_calculate_opportunity`. -/
def momentumScore (t : TokenData) : ℚ :=
  if 20 ≤ t.price_change_24h ∧ t.price_change_24h ≤ 100 then 20
  else if 10 ≤ t.price_change_24h ∧ t.price_change_24h < 20 then 15
  else if 5 ≤ t.price_change_24h ∧ t.price_change_24h < 10 then 10
  else 0

/-- Liquidity-health component (0-20) of `_calculate_opportunity`. -/
def liquidityScore (t : TokenData) : ℚ :=
  if t.liquidity_usd > 200000 then 20
  else if t.liquidity_usd > 100000 then 15
  else if t.liquidity_usd > 50000 then 10
  else 0

/-- Market-cap sweet-spot component (0-30) of `_calculate_opportunity`. -/
def mcapScore (t : TokenData) : ℚ :=
  if 1000000 ≤ t.market_cap ∧ t.market_cap ≤ 10000000 then 30
  else if 500000 ≤ t.market_cap ∧ t.market_cap < 1000000 then 20
  else if 10000000 < t.market_cap ∧ t.market_cap ≤ 50000000 then 15
  else 0

/-- `TokenSimilarityDetector._calculate_opportunity`: the four accumulated
components, clamped to 100. -/
def calculate_opportunity (t : TokenData) : ℚ :=
  min (volumeScore t + momentumScore t + liquidityScore t + mcapScore t) 100

/-- SimilarityMetrics as produced by `find_dust_like_tokens`; of the
`analysis` dict only the opportunity score is observable through
`similarity_score`, the remaining entries are presentation strings (and the
risk level, which needs wall-clock token age) and are omitted. -/
structure SimilarityMetrics where
  token : TokenData
  similarity_score : ℚ
deriving DecidableEq

/-- Descending order on `similarity_score` used by the profile matchers'
`sort(key=..., reverse=True)`. -/
def simGE (a b : SimilarityMetrics) : Prop :=
  b.similarity_score ≤ a.similarity_score

instance : DecidableRel simGE :=
  fun a b => inferInstanceAs (Decidable (b.similarity_score ≤ a.similarity_score))

instance : IsTotal SimilarityMetrics simGE :=
  ⟨fun a b => le_total b.similarity_score a.similarity_score⟩

instance : IsTrans SimilarityMetrics simGE :=
  ⟨fun _ _ _ h1 h2 => le_trans h2 h1⟩

/-- The three DUST-profile gates of `find_dust_like_tokens`: market cap in
[1M, 50M], volume/mcap in [0.5, 3], liquidity at least 100K. -/
def dustGate (t : TokenData) : Bool :=
  decide ((1000000 ≤ t.market_cap ∧ t.market_cap ≤ 50000000)
    ∧ (1/2 ≤ t.volume_24h / (t.market_cap + 1)
        ∧ t.volume_24h / (t.market_cap + 1) ≤ 3)
    ∧ ¬ t.liquidity_usd < 100000)

/-- `TokenSimilarityDetector.find_dust_like_tokens`: drop candidates failing
any gate, attach `similarity_score = opportunity_score / 100`, sort by score
descending (both Python's `list.sort` and `insertionSort` are stable). -/
def find_dust_like_tokens (candidates : List TokenData) : List SimilarityMetrics :=
  List.insertionSort simGE
    (candidates.filterMap (fun t =>
      if dustGate t then some ⟨t, calculate_opportunity t / 100⟩ else none))

/-- Total cost basis (`quantity * entry_price`) of the open positions. -/
def costSum (l : List (String × Position)) : ℚ :=
  (l.map (fun e => e.2.quantity * e.2.entry_price)).sum

/-- Cash accounting identity maintained by the portfolio operations: cash
equals starting balance plus realized P&L minus the cost basis still tied
up in open positions. -/
def BalanceInv (p : Portfolio) : Prop :=
  p.current_balance = p.starting_balance + p.total_realized_pnl - costSum p.positions

/-- A position opened at entry price 1 with quantity 100, derived fields
consistent with its prices (as after `update_price` at the entry price). -/
def posA : Position :=
  { token_symbol := "A", token_address := "A", entry_price := 1,
    current_price := 1, quantity := 100, position_value_usd := 100,
    pnl_usd := 0, pnl_percent := 0 }

/-- A position at address B whose last-known price 2 carries 100 of
unrealized P&L. -/
def posB : Position :=
  { token_symbol := "B", token_address := "B", entry_price := 1,
    current_price := 2, quantity := 100, position_value_usd := 200,
    pnl_usd := 100, pnl_percent := 100 }

/-- A second position for address A (different terms). -/
def posA2 : Position :=
  { token_symbol := "A", token_address := "A", entry_price := 2,
    current_price := 2, quantity := 50, position_value_usd := 100,
    pnl_usd := 0, pnl_percent := 0 }

/-- Portfolio holding one open position at address A. -/
def pWithA : Portfolio := add_position (freshPortfolio 1000) posA

/-- Portfolio holding open positions at addresses A and B. -/
def p3 : Portfolio :=
  { freshPortfolio 1000 with positions := [("A", posA), ("B", posB)] }

/-- The operation sequence open-update-close used against the
reconciliation claim. -/
def ceOps : List Op :=
  [Op.add posA, Op.updateAll [("A", 2)], Op.close "A" 2 "Take profit"]

/-- A single legal open used to witness the amended reconciliation
statement. -/
def wOps : List Op := [Op.add posA]

/-- The spec's stop-loss scenario position: entry 1.0, quantity 100
(derived fields at their dataclass defaults). -/
def scenarioPos : Position :=
  { token_symbol := "T", token_address := "T", entry_price := 1,
    current_price := 1, quantity := 100 }

/-- A timeframe whose support is 10 and resistance 20. -/
def tf0 : TimeframeData :=
  { timeframe := "1h", price_change := 0, volume_avg := 0,
    volume_trend := "stable", price_momentum := "neutral",
    support_level := 10, resistance_level := 20, volatility := 0 }

/-- A candidate inside all DUST gates (market cap 5M, volume ratio 1,
liquidity 150K). -/
def tokGood : TokenData :=
  { address := "g", symbol := "G", name := "G", price_usd := 1,
    price_change_24h := 0, volume_24h := 5000001, liquidity_usd := 150000,
    market_cap := 5000000, fdv := 0, chain := "bsc", pair_address := "pg" }

/-- The same candidate with market cap 60M, above the DUST range. -/
def tokBig : TokenData := { tokGood with address := "b", market_cap := 60000000 }

/-- Inserting under a key always makes that key map to the new value. -/
theorem dictLookup_dictInsert_self {β : Type} (k : String) (v : β) :
    ∀ l : List (String × β), dictLookup k (dictInsert k v l) = some v
  | [] => by simp [dictInsert, dictLookup]
  | e :: rest => by
    by_cases h : e.1 = k
    · simp [dictInsert, h, dictLookup]
    · simp [dictInsert, h, dictLookup, dictLookup_dictInsert_self k v rest]

/-- C9. Opportunity score bounds: `_calculate_opportunity` is the sum of
four sub-scores bounded by 30 (volume), 20 (momentum), 20 (liquidity) and
30 (market cap), clamped to 100, hence always lies in [0, 100]. -/
theorem C9_opportunity_score_bounds (t : TokenData) :
    0 ≤ calculate_opportunity t ∧ calculate_opportunity t ≤ 100 ∧
    calculate_opportunity t =
      min (volumeScore t + momentumScore t + liquidityScore t + mcapScore t) 100 ∧
    0 ≤ volumeScore t ∧ volumeScore t ≤ 30 ∧
    0 ≤ momentumScore t ∧ momentumScore t ≤ 20 ∧
    0 ≤ liquidityScore t ∧ liquidityScore t ≤ 20 ∧
    0 ≤ mcapScore t ∧ mcapScore t ≤ 30 := by
  have hv : 0 ≤ volumeScore t ∧ volumeScore t ≤ 30 := by
    unfold volumeScore; split_ifs <;> norm_num
  have hm : 0 ≤ momentumScore t ∧ momentumScore t ≤ 20 := by
    unfold momentumScore; split_ifs <;> norm_num
  have hl : 0 ≤ liquidityScore t ∧ liquidityScore t ≤ 20 := by
    unfold liquidityScore; split_ifs <;> norm_num
  have hc : 0 ≤ mcapScore t ∧ mcapScore t ≤ 30 := by
    unfold mcapScore; split_ifs <;> norm_num
  refine ⟨?_, ?_, rfl, hv.1, hv.2, hm.1, hm.2, hl.1, hl.2, hc.1, hc.2⟩
  · exact le_min (by linarith [hv.1, hm.1, hl.1, hc.1]) (by norm_num)
  · exact min_le_right _ _

/-- C2 (amended). `Portfolio.add_position` is unconditional: it stores the
position under its address (overwriting any live position there), always
deducts the cost from cash, always appends a buy trade, and leaves the P&L
aggregates and win/loss counters untouched. -/
theorem C2_add_position_unconditional (p : Portfolio) (pos : Position) :
    dictLookup pos.token_address (add_position p pos).positions = some pos ∧
    (add_position p pos).current_balance
      = p.current_balance - pos.quantity * pos.entry_price ∧
    (add_position p pos).trade_history = p.trade_history ++ [buyTrade pos] ∧
    (add_position p pos).total_realized_pnl = p.total_realized_pnl ∧
    (add_position p pos).total_unrealized_pnl = p.total_unrealized_pnl ∧
    (add_position p pos).win_count = p.win_count ∧
    (add_position p pos).loss_count = p.loss_count :=
  ⟨dictLookup_dictInsert_self _ _ _, rfl, rfl, rfl, rfl, rfl, rfl⟩

/-- C2 counterexample. With a live position at address A, `add_position`
for the same address is not refused: the stored position is replaced by
the new one, cash is deducted again, and a trade is appended. -/
theorem C2_counterexample :
    (dictLookup "A" pWithA.positions).isSome = true ∧
    dictLookup "A" (add_position pWithA posA2).positions = some posA2 ∧
    posA2 ≠ posA ∧
    (add_position pWithA posA2).current_balance ≠ pWithA.current_balance ∧
    (add_position pWithA posA2).trade_history ≠ pWithA.trade_history := by
  with_unfolding_all decide

/-- C6. Exit-rule priority: whenever the refreshed position's
`pnl_percent` is at most -15, `_analyze_existing_position` emits a sell
decision with confidence 90 and the stop-loss reason, whatever the overall
trend, strategy preference, or holding time. -/
theorem C6_stop_loss_first (pos : Position) (price : ℚ) (overall_trend : String)
    (strategy : TradingStrategy) (hours_held : ℚ)
    (h : (update_price pos price).pnl_percent ≤ -15) :
    analyze_existing_position pos price overall_trend strategy hours_held =
      some ⟨"sell", 90, ExitReason.stopLoss, (update_price pos price).quantity⟩ := by
  unfold analyze_existing_position
  rw [if_pos h]

/-- Witness for C6: the spec scenario entry 1.0, quantity 100, price 0.84
(pnl -16%) triggers the stop-loss rule first even under a bullish trend,
scalping preference and a long holding time. -/
theorem C6_stop_loss_first_witness :
    analyze_existing_position scenarioPos (84/100) "strong_bullish"
      TradingStrategy.scalping 10 =
      some ⟨"sell", 90, ExitReason.stopLoss, 100⟩ := by
  have h := C6_stop_loss_first scenarioPos (84/100) "strong_bullish"
    TradingStrategy.scalping 10 (by with_unfolding_all decide)
  exact h

/-- C10. Every successful close increments exactly one of the win/loss
counters; the win counter only for strictly positive final P&L, so a close
at exactly zero P&L counts as a loss. -/
theorem C10_zero_pnl_counts_as_loss (p : Portfolio) (addr : String) (price : ℚ)
    (reason : String) (pos : Position)
    (h : dictLookup addr p.positions = some pos) :
    (close_position p addr price reason).2 = true ∧
    ((update_price pos price).pnl_usd = 0 →
      (close_position p addr price reason).1.loss_count = p.loss_count + 1 ∧
      (close_position p addr price reason).1.win_count = p.win_count) ∧
    ((close_position p addr price reason).1.win_count = p.win_count + 1 ↔
      0 < (update_price pos price).pnl_usd) ∧
    (close_position p addr price reason).1.win_count
      + (close_position p addr price reason).1.loss_count
      = p.win_count + p.loss_count + 1 := by
  have hret : (close_position p addr price reason).2 = true := by
    unfold close_position; rw [h]
  have hwin : (close_position p addr price reason).1.win_count
      = if (update_price pos price).pnl_usd > 0 then p.win_count + 1
        else p.win_count := by
    unfold close_position; rw [h]
  have hloss : (close_position p addr price reason).1.loss_count
      = if (update_price pos price).pnl_usd > 0 then p.loss_count
        else p.loss_count + 1 := by
    unfold close_position; rw [h]
  rw [hret, hwin, hloss]
  by_cases hp : (update_price pos price).pnl_usd > 0
  · rw [if_pos hp, if_pos hp]
    refine ⟨rfl, ?_, ⟨fun _ => hp, fun _ => rfl⟩, by omega⟩
    intro h0; rw [h0] at hp; exact absurd hp (lt_irrefl 0)
  · rw [if_neg hp, if_neg hp]
    refine ⟨rfl, fun _ => ⟨rfl, rfl⟩, ⟨fun hw => ?_, fun hg => absurd hg hp⟩, by omega⟩
    exact absurd hw (by omega)

/-- Witness for C10: closing the position at its entry price realizes
exactly zero P&L and increments the loss counter. -/
theorem C10_zero_pnl_counts_as_loss_witness :
    (close_position pWithA "A" 1 "Take profit").1.loss_count
      = pWithA.loss_count + 1 ∧
    (close_position pWithA "A" 1 "Take profit").1.win_count = pWithA.win_count :=
  (C10_zero_pnl_counts_as_loss pWithA "A" 1 "Take profit" posA
    (by with_unfolding_all decide)).2.1 (by with_unfolding_all decide)

/-- C5 counterexample. At confidence 0 (within [0, 100]) the source returns
0, not the claimed clamped formula's 10% of available capital: the source
applies no clamp to `(confidence - 50) / 50`. -/
theorem C5_counterexample :
    calculate_position_size (freshPortfolio 1000) 1 0 ≠
      get_available_capital (freshPortfolio 1000)
        * (1/10 + 1/10 * max 0 (min 1 ((0 - 50) / 50))) / 1 := by
  with_unfolding_all decide

/-- C5 (amended). For confidence in [50, 100] the position size matches the
clamped formula (the clamp is the identity there); for confidence below 50
no clamp applies and the invested fraction falls strictly below 10% of the
available capital whenever any capital is available. -/
theorem C5_position_size (p : Portfolio) (price confidence : ℚ)
    (hp : 0 < price) :
    (50 ≤ confidence → confidence ≤ 100 →
      calculate_position_size p price confidence =
        get_available_capital p
          * (1/10 + 1/10 * max 0 (min 1 ((confidence - 50) / 50))) / price) ∧
    (confidence < 50 → 0 < get_available_capital p →
      calculate_position_size p price confidence
        < get_available_capital p * (1/10) / price) := by
  constructor
  · intro h1 h2
    unfold calculate_position_size
    rw [if_pos hp]
    have hle : ((confidence - 50) / 50 : ℚ) ≤ 1 := by
      rw [div_le_one (by norm_num : (0:ℚ) < 50)]; linarith
    have hge : (0:ℚ) ≤ (confidence - 50) / 50 :=
      div_nonneg (by linarith) (by norm_num)
    rw [min_eq_right hle, max_eq_right hge]
  · intro h1 h2
    unfold calculate_position_size
    rw [if_pos hp]
    have hneg : ((confidence - 50) / 50 : ℚ) < 0 :=
      div_neg_of_neg_of_pos (by linarith) (by norm_num)
    have hlt : (1/10 + 1/10 * ((confidence - 50) / 50) : ℚ) < 1/10 := by nlinarith
    have := mul_lt_mul_of_pos_left hlt h2
    exact div_lt_div_of_pos_right this hp

/-- Witness for C5: with 500 available, confidence 75 gives the clamped
formula's value and confidence 40 invests strictly less than 10%. -/
theorem C5_position_size_witness :
    calculate_position_size (freshPortfolio 1000) 1 75 =
      get_available_capital (freshPortfolio 1000)
        * (1/10 + 1/10 * max 0 (min 1 ((75 - 50) / 50))) / 1 ∧
    calculate_position_size (freshPortfolio 1000) 1 40
      < get_available_capital (freshPortfolio 1000) * (1/10) / 1 :=
  ⟨(C5_position_size (freshPortfolio 1000) 1 75 (by norm_num)).1
      (by norm_num) (by norm_num),
   (C5_position_size (freshPortfolio 1000) 1 40 (by norm_num)).2
      (by norm_num) (by with_unfolding_all decide)⟩

/-- C4 counterexample. For the series [1, 2] the second-half mean (2) is
exactly twice the first-half mean (1), yet `calculate_volume_trend`
returns "stable", not the claimed "increasing": the source divides by
`avg_first_half + 1`. -/
theorem C4_counterexample :
    mean ([(1:ℚ), 2].drop ([(1:ℚ), 2].length / 2)) =
      2 * mean ([(1:ℚ), 2].take ([(1:ℚ), 2].length / 2)) ∧
    calculate_volume_trend [1, 2] ≠ "increasing" := by
  with_unfolding_all decide

/-- C4 (amended). Because the ratio divides by the first-half mean plus
one, the 2x / 0.5x / equal scenarios classify as claimed only under the
shifted thresholds: 2x classifies as "increasing" when the first-half mean
exceeds 13/7, 0.5x always classifies as "decreasing" (for nonnegative
volumes), and equal means classify as "stable" when the first-half mean is
at least 7/3. -/
theorem C4_volume_trend (volumes : List ℚ) (hlen : 2 ≤ volumes.length)
    (hnn : ∀ v ∈ volumes, 0 ≤ v) :
    (mean (volumes.drop (volumes.length / 2))
        = 2 * mean (volumes.take (volumes.length / 2)) →
      13/7 < mean (volumes.take (volumes.length / 2)) →
      calculate_volume_trend volumes = "increasing") ∧
    (mean (volumes.drop (volumes.length / 2))
        = mean (volumes.take (volumes.length / 2)) / 2 →
      calculate_volume_trend volumes = "decreasing") ∧
    (mean (volumes.drop (volumes.length / 2))
        = mean (volumes.take (volumes.length / 2)) →
      7/3 ≤ mean (volumes.take (volumes.length / 2)) →
      calculate_volume_trend volumes = "stable") := by
  have hnl : ¬ volumes.length < 2 := by omega
  have hm1 : 0 ≤ mean (volumes.take (volumes.length / 2)) := by
    apply div_nonneg _ (Nat.cast_nonneg _)
    exact List.sum_nonneg (fun v hv => hnn v (List.take_subset _ _ hv))
  have hd : (0:ℚ) < mean (volumes.take (volumes.length / 2)) + 1 := by linarith
  refine ⟨?_, ?_, ?_⟩
  · intro h2 h13
    unfold calculate_volume_trend
    rw [if_neg hnl, h2, if_pos]
    rw [gt_iff_lt, lt_div_iff₀ hd]
    linarith
  · intro h2
    unfold calculate_volume_trend
    rw [if_neg hnl, h2, if_neg, if_pos]
    · rw [div_lt_iff₀ hd]; linarith
    · rw [gt_iff_lt, lt_div_iff₀ hd]; intro hcon; linarith
  · intro h2 h73
    unfold calculate_volume_trend
    rw [if_neg hnl, h2, if_neg, if_neg]
    · rw [div_lt_iff₀ hd]; intro hcon; linarith
    · rw [gt_iff_lt, lt_div_iff₀ hd]; intro hcon; linarith

/-- Witness for C4: [7, 14] doubles and classifies "increasing", [4, 2]
halves and classifies "decreasing", [3, 3] is flat and classifies
"stable". -/
theorem C4_volume_trend_witness :
    calculate_volume_trend [7, 14] = "increasing" ∧
    calculate_volume_trend [4, 2] = "decreasing" ∧
    calculate_volume_trend [3, 3] = "stable" :=
  ⟨(C4_volume_trend [7, 14] (by decide) (by with_unfolding_all decide)).1
      (by with_unfolding_all decide) (by with_unfolding_all decide),
   (C4_volume_trend [4, 2] (by decide) (by with_unfolding_all decide)).2.1
      (by with_unfolding_all decide),
   (C4_volume_trend [3, 3] (by decide) (by with_unfolding_all decide)).2.2
      (by with_unfolding_all decide) (by with_unfolding_all decide)⟩

/-- C7. Risk/reward bounds and defaults: the result always lies in [0, 3];
it is 1 when no timeframe contributes a positive support or none
contributes a positive resistance; and it is 3 when the price equals the
average positive support (zero potential loss). -/
theorem C7_risk_reward_bounds (price : ℚ) (tfs : List TimeframeData) :
    (0 ≤ calculate_risk_reward price tfs ∧ calculate_risk_reward price tfs ≤ 3) ∧
    (posSupports tfs = [] ∨ posResistances tfs = [] →
      calculate_risk_reward price tfs = 1) ∧
    (¬ (posSupports tfs = [] ∨ posResistances tfs = []) →
      price = mean (posSupports tfs) →
      calculate_risk_reward price tfs = 3) := by
  refine ⟨?_, ?_, ?_⟩
  · unfold calculate_risk_reward
    split_ifs with h1 h2
    · norm_num
    · norm_num
    · refine ⟨le_min (div_nonneg (abs_nonneg _) (abs_nonneg _)) (by norm_num),
        min_le_right _ _⟩
  · intro h
    unfold calculate_risk_reward
    rw [if_pos h]
  · intro h1 h2
    unfold calculate_risk_reward
    rw [if_neg h1, if_pos]
    rw [h2, sub_self, abs_zero]

/-- Witness for C7: with a single timeframe (support 10, resistance 20) a
price of 10 sits exactly on the average support and yields 3; with no
timeframes the default 1 is returned. -/
theorem C7_risk_reward_bounds_witness :
    calculate_risk_reward 10 [tf0] = 3 ∧ calculate_risk_reward 5 [] = 1 :=
  ⟨(C7_risk_reward_bounds 10 [tf0]).2.2 (by with_unfolding_all decide)
      (by with_unfolding_all decide),
   (C7_risk_reward_bounds 5 []).2.1 (Or.inl rfl)⟩

/-- C8. DUST-profile gating: every survivor of `find_dust_like_tokens` has
market cap within [1M, 50M] (so a 60M candidate never appears, whatever its
score), carries `similarity_score = opportunity_score / 100`, and the
output is sorted by similarity score in descending order. -/
theorem C8_dust_gate_rejection (candidates : List TokenData)
    (m : SimilarityMetrics) (hm : m ∈ find_dust_like_tokens candidates) :
    (1000000 ≤ m.token.market_cap ∧ m.token.market_cap ≤ 50000000) ∧
    m.similarity_score = calculate_opportunity m.token / 100 ∧
    List.Sorted simGE (find_dust_like_tokens candidates) := by
  rw [find_dust_like_tokens, List.mem_insertionSort] at hm
  rw [List.mem_filterMap] at hm
  obtain ⟨t, _, hft⟩ := hm
  by_cases hg : dustGate t
  · rw [if_pos hg] at hft
    obtain rfl : (⟨t, calculate_opportunity t / 100⟩ : SimilarityMetrics) = m :=
      Option.some.inj hft
    have hg' := of_decide_eq_true hg
    exact ⟨hg'.1, rfl, List.sorted_insertionSort simGE _⟩
  · rw [if_neg hg] at hft
    exact absurd hft (Option.noConfusion)

/-- Witness for C8: with candidates [tokBig, tokGood] only tokGood (market
cap 5M) survives; its membership instantiates the gate theorem. -/
theorem C8_dust_gate_rejection_witness :
    (1000000 ≤ (⟨tokGood, calculate_opportunity tokGood / 100⟩
        : SimilarityMetrics).token.market_cap ∧
      (⟨tokGood, calculate_opportunity tokGood / 100⟩
        : SimilarityMetrics).token.market_cap ≤ 50000000) ∧
    (⟨tokGood, calculate_opportunity tokGood / 100⟩
        : SimilarityMetrics).similarity_score
      = calculate_opportunity (⟨tokGood, calculate_opportunity tokGood / 100⟩
          : SimilarityMetrics).token / 100 ∧
    List.Sorted simGE (find_dust_like_tokens [tokBig, tokGood]) :=
  C8_dust_gate_rejection [tokBig, tokGood]
    ⟨tokGood, calculate_opportunity tokGood / 100⟩
    (by
      rw [find_dust_like_tokens, List.mem_insertionSort, List.mem_filterMap]
      refine ⟨tokGood, by simp, ?_⟩
      rw [if_pos (by with_unfolding_all decide : dustGate tokGood = true)])

/-- What one price-update pass does to each stored entry: entries covered
by the price map are refreshed at the mapped price, the rest are kept. -/
theorem updateEntries_lookup (m : List (String × ℚ)) (a : String) :
    ∀ l : List (String × Position),
      dictLookup a (updateEntries m l).1 =
        (dictLookup a l).map
          (fun pos => (dictLookup a m).elim pos (fun pr => update_price pos pr))
  | [] => rfl
  | e :: rest => by
    by_cases h : e.1 = a
    · subst h
      cases hm : dictLookup e.1 m with
      | some pr => simp [updateEntries, hm, dictLookup]
      | none => simp [updateEntries, hm, dictLookup]
    · cases hm : dictLookup e.1 m with
      | some pr =>
        simp [updateEntries, hm, dictLookup, h, updateEntries_lookup m a rest]
      | none =>
        simp [updateEntries, hm, dictLookup, h, updateEntries_lookup m a rest]

/-- The accumulated unrealized total of one pass equals the sum of
`pnl_usd` over exactly the refreshed entries of the result, i.e. those
whose address the price map covers. -/
theorem updateEntries_snd (m : List (String × ℚ)) :
    ∀ l : List (String × Position),
      (updateEntries m l).2 =
        ((updateEntries m l).1.map
          (fun e => if (dictLookup e.1 m).isSome then e.2.pnl_usd else 0)).sum
  | [] => rfl
  | e :: rest => by
    cases hm : dictLookup e.1 m with
    | some pr => simp [updateEntries, hm, updateEntries_snd m rest]
    | none => simp [updateEntries, hm, updateEntries_snd m rest]

/-- C3 (amended). After `update_all_prices` with a possibly incomplete
price map, every stored position is refreshed exactly when its address is
in the map (others keep their last-known fields), and the recomputed
`total_unrealized_pnl` sums the P&L of only the covered positions — the
uncovered ones contribute nothing to the total. -/
theorem C3_partial_price_maps (p : Portfolio) (m : List (String × ℚ))
    (a : String) (pos : Position)
    (h : dictLookup a p.positions = some pos) :
    dictLookup a (update_all_prices p m).positions =
      some ((dictLookup a m).elim pos (fun pr => update_price pos pr)) ∧
    (update_all_prices p m).total_unrealized_pnl =
      (((update_all_prices p m).positions).map
        (fun e => if (dictLookup e.1 m).isSome then e.2.pnl_usd else 0)).sum := by
  constructor
  · show dictLookup a (updateEntries m p.positions).1 = _
    rw [updateEntries_lookup m a p.positions, h]
    rfl
  · exact updateEntries_snd m p.positions

/-- C3 counterexample. With live positions at A (P&L 50 after refresh) and
B (last-known P&L 100) and a price map covering only A, the recomputed
total is 50, not the claimed 150: the uncovered position's last-known P&L
is dropped from the total, which is reset to 0 and rebuilt from the map. -/
theorem C3_counterexample :
    (update_all_prices p3 [("A", 3/2)]).total_unrealized_pnl ≠
      (((update_all_prices p3 [("A", 3/2)]).positions).map
        (fun e => e.2.pnl_usd)).sum := by
  with_unfolding_all decide

/-- Witness for C3: in the same two-position portfolio, the position at B
(absent from the map) keeps its fields and the total equals the covered
positions' P&L sum. -/
theorem C3_partial_price_maps_witness :
    dictLookup "B" (update_all_prices p3 [("A", 3/2)]).positions =
      some ((dictLookup "B" [("A", (3:ℚ)/2)]).elim posB
          (fun pr => update_price posB pr)) ∧
    (update_all_prices p3 [("A", 3/2)]).total_unrealized_pnl =
      (((update_all_prices p3 [("A", 3/2)]).positions).map
        (fun e => if (dictLookup e.1 [("A", (3:ℚ)/2)]).isSome
          then e.2.pnl_usd else 0)).sum :=
  C3_partial_price_maps p3 [("A", 3/2)] "B" posB (by with_unfolding_all decide)

/-- Unfolding lemma: cost basis of a cons. -/
theorem costSum_cons (e : String × Position) (l : List (String × Position)) :
    costSum (e :: l) = e.2.quantity * e.2.entry_price + costSum l := by
  simp [costSum]

/-- Unfolding lemma: position value of a cons. -/
theorem pvSum_cons (e : String × Position) (l : List (String × Position)) :
    pvSum (e :: l) = e.2.position_value_usd + pvSum l := by
  simp [pvSum]

/-- Unfolding lemma: cost basis of an append. -/
theorem costSum_append (l1 l2 : List (String × Position)) :
    costSum (l1 ++ l2) = costSum l1 + costSum l2 := by
  simp [costSum]

/-- Dict assignment under an absent key appends the new entry. -/
theorem dictInsert_of_lookup_none {β : Type} (k : String) (v : β) :
    ∀ l : List (String × β), dictLookup k l = none →
      dictInsert k v l = l ++ [(k, v)]
  | [] => fun _ => rfl
  | e :: rest => by
    intro hl
    by_cases h : e.1 = k
    · simp only [dictLookup, if_pos h] at hl
      exact Option.noConfusion hl
    · simp only [dictLookup, if_neg h] at hl
      simp only [dictInsert, if_neg h, dictInsert_of_lookup_none k v rest hl,
        List.cons_append]

/-- Deleting the looked-up entry removes exactly its cost basis (lookup and
delete both act on the first entry with the key). -/
theorem costSum_dictErase (k : String) :
    ∀ (l : List (String × Position)) (pos : Position),
      dictLookup k l = some pos →
      costSum (dictErase k l) = costSum l - pos.quantity * pos.entry_price
  | [], pos, h => by cases h
  | e :: rest, pos, h => by
    by_cases hk : e.1 = k
    · simp only [dictLookup, if_pos hk] at h
      obtain rfl := Option.some.inj h
      simp only [dictErase, if_pos hk]
      rw [costSum_cons]
      ring
    · simp only [dictLookup, if_neg hk] at h
      simp only [dictErase, if_neg hk]
      rw [costSum_cons, costSum_cons, costSum_dictErase k rest pos h]
      ring

/-- A price-update pass does not change the cost basis of the open
positions: refreshing a position keeps its quantity and entry price. -/
theorem costSum_updateEntries (m : List (String × ℚ)) :
    ∀ l : List (String × Position), costSum (updateEntries m l).1 = costSum l
  | [] => rfl
  | e :: rest => by
    cases hm : dictLookup e.1 m with
    | some pr =>
      have h1 : (updateEntries m (e :: rest)).1
          = (e.1, update_price e.2 pr) :: (updateEntries m rest).1 := by
        simp [updateEntries, hm]
      rw [h1, costSum_cons, costSum_cons, costSum_updateEntries m rest]
      rfl
    | none =>
      have h1 : (updateEntries m (e :: rest)).1 = e :: (updateEntries m rest).1 := by
        simp [updateEntries, hm]
      rw [h1, costSum_cons, costSum_cons, costSum_updateEntries m rest]

/-- When the price map covers every open position, the recomputed
unrealized total is exactly position value minus cost basis of the
refreshed state. -/
theorem updateEntries_snd_full (m : List (String × ℚ)) :
    ∀ l : List (String × Position),
      (∀ e ∈ l, (dictLookup e.1 m).isSome = true) →
      (updateEntries m l).2
        = pvSum (updateEntries m l).1 - costSum (updateEntries m l).1
  | [], _ => by simp [updateEntries, pvSum, costSum]
  | e :: rest, hfull => by
    cases hm : dictLookup e.1 m with
    | some pr =>
      have h1 : (updateEntries m (e :: rest)).1
          = (e.1, update_price e.2 pr) :: (updateEntries m rest).1 := by
        simp [updateEntries, hm]
      have h2 : (updateEntries m (e :: rest)).2
          = (update_price e.2 pr).pnl_usd + (updateEntries m rest).2 := by
        simp [updateEntries, hm]
      rw [h1, h2, pvSum_cons, costSum_cons,
        updateEntries_snd_full m rest
          (fun x hx => hfull x (List.mem_cons_of_mem e hx))]
      have h3 : (update_price e.2 pr).pnl_usd
          = (update_price e.2 pr).position_value_usd
            - (update_price e.2 pr).quantity * (update_price e.2 pr).entry_price := rfl
      rw [h3]
      ring
    | none =>
      exact absurd (hfull e (List.mem_cons_self e rest)) (by simp [hm])

/-- Each legal operation preserves the cash accounting identity. -/
theorem balanceInv_applyOp (p : Portfolio) (op : Op) (hb : BalanceInv p)
    (hl : legalOpB p op = true) : BalanceInv (applyOp p op) := by
  cases op with
  | add pos =>
    have hnone : dictLookup pos.token_address p.positions = none := by
      simpa [legalOpB, Option.isNone_iff_eq_none] using hl
    have hiff : BalanceInv (add_position p pos) ↔
        p.current_balance - pos.quantity * pos.entry_price =
          p.starting_balance + p.total_realized_pnl
            - costSum (dictInsert pos.token_address pos p.positions) := Iff.rfl
    show BalanceInv (add_position p pos)
    rw [hiff, dictInsert_of_lookup_none _ _ _ hnone, costSum_append]
    have h2 : costSum [(pos.token_address, pos)]
        = pos.quantity * pos.entry_price := by simp [costSum]
    rw [h2]
    unfold BalanceInv at hb
    linarith
  | updateAll m =>
    have hiff : BalanceInv (update_all_prices p m) ↔
        p.current_balance = p.starting_balance + p.total_realized_pnl
          - costSum (updateEntries m p.positions).1 := Iff.rfl
    show BalanceInv (update_all_prices p m)
    rw [hiff, costSum_updateEntries]
    exact hb
  | close a price r =>
    show BalanceInv ((close_position p a price r).1)
    cases hlk : dictLookup a p.positions with
    | none =>
      have heq : (close_position p a price r).1 = p := by
        unfold close_position; rw [hlk]
      rw [heq]; exact hb
    | some pos =>
      have h1 : (close_position p a price r).1.current_balance
          = p.current_balance + pos.quantity * price := by
        unfold close_position; rw [hlk]; rfl
      have h2 : (close_position p a price r).1.total_realized_pnl
          = p.total_realized_pnl
            + (pos.quantity * price - pos.quantity * pos.entry_price) := by
        unfold close_position; rw [hlk]; rfl
      have h3 : (close_position p a price r).1.positions
          = dictErase a p.positions := by
        unfold close_position; rw [hlk]
      have h4 : (close_position p a price r).1.starting_balance
          = p.starting_balance := by
        unfold close_position; rw [hlk]
      unfold BalanceInv
      rw [h1, h2, h3, h4, costSum_dictErase a p.positions pos hlk]
      unfold BalanceInv at hb
      linarith

/-- The identity propagates along any legal operation sequence. -/
theorem balanceInv_runOps :
    ∀ (ops : List Op) (p : Portfolio), BalanceInv p →
      legalOpsB p ops = true → BalanceInv (runOps p ops)
  | [], _, hb, _ => hb
  | op :: ops, p, hb, hl => by
    rw [legalOpsB, Bool.and_eq_true] at hl
    exact balanceInv_runOps ops (applyOp p op)
      (balanceInv_applyOp p op hb hl.1) hl.2

/-- C1 (amended). After any address-fresh sequence of open/update/close
operations from a fresh portfolio, the reconciliation identity
`cash + Σ position value = starting balance + realized + unrealized` holds
exactly after an `update_all_prices` whose price map covers every open
position (it can fail right after `add_position` and `close_position`, see
the counterexample). -/
theorem C1_reconciliation_after_full_update (b : ℚ) (ops : List Op)
    (m : List (String × ℚ))
    (hleg : legalOpsB (freshPortfolio b) ops = true)
    (hfull : ∀ e ∈ (runOps (freshPortfolio b) ops).positions,
      (dictLookup e.1 m).isSome = true) :
    get_total_value (update_all_prices (runOps (freshPortfolio b) ops) m) =
      (update_all_prices (runOps (freshPortfolio b) ops) m).starting_balance +
      (update_all_prices (runOps (freshPortfolio b) ops) m).total_realized_pnl +
      (update_all_prices (runOps (freshPortfolio b) ops) m).total_unrealized_pnl := by
  have hb0 : BalanceInv (freshPortfolio b) := by
    unfold BalanceInv freshPortfolio costSum
    simp
  have hb := balanceInv_runOps ops (freshPortfolio b) hb0 hleg
  unfold BalanceInv at hb
  have h2 := updateEntries_snd_full m (runOps (freshPortfolio b) ops).positions hfull
  have h3 := costSum_updateEntries m (runOps (freshPortfolio b) ops).positions
  show (runOps (freshPortfolio b) ops).current_balance
      + pvSum (updateEntries m (runOps (freshPortfolio b) ops).positions).1
    = (runOps (freshPortfolio b) ops).starting_balance
      + (runOps (freshPortfolio b) ops).total_realized_pnl
      + (updateEntries m (runOps (freshPortfolio b) ops).positions).2
  rw [h2, h3, hb]
  ring

/-- C1 counterexample. The legal sequence open A (priced at entry), full
price update at 2, close A at 2 leaves total value 1100 but
starting + realized + unrealized = 1200: `close_position` does not remove
the closed position's P&L from `total_unrealized_pnl`, so the claimed
"after every operation" invariant fails (by 100, far beyond float
tolerance). -/
theorem C1_counterexample :
    legalOpsB (freshPortfolio 1000) ceOps = true ∧
    get_total_value (runOps (freshPortfolio 1000) ceOps) ≠
      (runOps (freshPortfolio 1000) ceOps).starting_balance +
      (runOps (freshPortfolio 1000) ceOps).total_realized_pnl +
      (runOps (freshPortfolio 1000) ceOps).total_unrealized_pnl := by
  with_unfolding_all decide

/-- Witness for C1: a single open followed by a covering price update
satisfies the reconciliation identity. -/
theorem C1_reconciliation_after_full_update_witness :
    get_total_value (update_all_prices (runOps (freshPortfolio 1000) wOps)
        [("A", 2)]) =
      (update_all_prices (runOps (freshPortfolio 1000) wOps)
        [("A", 2)]).starting_balance +
      (update_all_prices (runOps (freshPortfolio 1000) wOps)
        [("A", 2)]).total_realized_pnl +
      (update_all_prices (runOps (freshPortfolio 1000) wOps)
        [("A", 2)]).total_unrealized_pnl :=
  C1_reconciliation_after_full_update 1000 wOps [("A", 2)]
    (by with_unfolding_all decide) (by with_unfolding_all decide)

end BSC
